import Mathlib

/-!
# JsonSiteGo — shallow embedding and verification of the spec's claims

This file embeds, in Lean 4, the template-assembly and route-dispatch
pipeline of `cmd/jsonSiteGoServer/jsonSiteGoServer.go` (the binary built by
the repository's Dockerfile): the site data model, the template cache built
by `parseTemplates`, the per-page handler produced by `getHandler`
(path check, cache lookup, menu construction via Go's `sort.Slice`),
the content-negotiated error renderers, the theme cookie handler, and the
custom-content template that dispatches on content-block types.

Go strings become `String`, Go slices become `List`, the Go `nil`/non-`nil`
slice distinction (meaningful for `page.CustomContent != nil`) becomes
`Option (List _)`, Go's `map[string]*template.Template` becomes an
association list with assignment semantics, and Go `int` becomes `Int`.
External effects (files parsed from the `templates/` directory, which is not
part of the source tree) are parameters recording whether each parse step
succeeds.
-/

namespace JsonSiteGo

/-! ## Data model (from jsonSiteGoServer.go) -/

/-- `Route` — parsed HTTP route (`type Route struct { Method, Path string }`). -/
structure Route where
  method : String
  path : String
deriving Repr, DecidableEq, Inhabited

/-- `Author` — author information. -/
structure Author where
  name : String
  email : String
deriving Repr, DecidableEq, Inhabited

/-- `ContentBlock` — a generic block of content (`Type` tag plus key/values).
The Go field `KeyValues` is `map[string]interface{}`; none of the embedded
code paths ever read the dynamic values, so they are modelled as strings. -/
structure ContentBlock where
  type : String
  keyValues : List (String × String)
deriving Repr, DecidableEq, Inhabited

/-- `Page` — one page of the site.  `customContent` is `Option` because Go
distinguishes a `nil` slice (JSON key absent) from an empty non-`nil` slice
(`custom_content: []`), and `parseTemplates` branches on `!= nil`. -/
structure Page where
  route : String
  title : String
  description : String
  draft : Bool
  errorHttpCode : String
  errorMsg : String
  createHandler : Bool
  showInMenu : Bool
  menuOrder : Int
  content : String
  customContent : Option (List ContentBlock)
  template : String
  layout : String
deriving Repr, DecidableEq, Inhabited

/-- `SiteConfig` — overall site configuration. -/
structure SiteConfig where
  title : String
  baseURL : String
  language : String
  description : String
  author : Author
  social : List (String × String)
  footer : String
  pages : List Page
deriving Repr, DecidableEq, Inhabited

/-- An incoming HTTP request, restricted to the parts the embedded handlers
read: URL path, `Accept` header, cookies, `Referer` header (Go's
`r.Referer()` yields `""` when the header is absent), and form values
(read by no current handler; kept so that independence from them is
statable). -/
structure Request where
  urlPath : String
  accept : String
  cookies : List (String × String)
  referer : String
  formValues : List (String × String)
deriving Repr, DecidableEq, Inhabited

/-- `r.Cookie(name)` — first cookie with the given name, or an error
(modelled as `none`) when absent. -/
def requestCookie (r : Request) (name : String) : Option String :=
  (r.cookies.find? (fun kv => kv.1 == name)).map (·.2)

/-! ## Theme handling (getThemeFromCookie / handleSetTheme) -/

/-- `getThemeFromCookie` — the theme from the `theme` cookie, defaulting to
`"light"` when the cookie is absent or holds neither `"light"` nor
`"dark"`. -/
def getThemeFromCookie (r : Request) : String :=
  match requestCookie r "theme" with
  | none => "light"
  | some v => if v != "light" && v != "dark" then "light" else v

/-- The cookie written by `http.SetCookie` (name, value, path). -/
structure SetCookie where
  name : String
  value : String
  path : String
deriving Repr, DecidableEq, Inhabited

/-- Observable outcome of the `GET /set-theme` handler: the `Set-Cookie`
header and the redirect (status 303, `http.StatusSeeOther`). -/
structure SetThemeResult where
  cookie : SetCookie
  status : Nat
  location : String
deriving Repr, DecidableEq, Inhabited

/-- `handleSetTheme` — flips the resolved theme, writes the `theme` cookie
with path `/`, and redirects (303) to the referrer, or `/` when absent. -/
def handleSetTheme (r : Request) : SetThemeResult :=
  let theme := if getThemeFromCookie r == "light" then "dark" else "light"
  let referer := if r.referer == "" then "/" else r.referer
  { cookie := { name := "theme", value := theme, path := "/" }
    status := 303
    location := referer }

/-- Spec-side description (§4.5 of the spec): resolve the two-valued
preference, with any other or missing value defaulting to `light`. -/
def specResolveTheme : Option String → String
  | none => "light"
  | some v => if v = "light" then "light" else if v = "dark" then "dark" else "light"

/-- Spec-side description (§4.5 of the spec): the toggle flips
`light ↔ dark`. -/
def specFlipTheme (t : String) : String :=
  if t = "light" then "dark" else "light"

/-- The client-visible cookie evolution induced by one call to the toggle
handler, as a function of the current `theme` cookie (absent = `none`); the
other request fields do not matter (proved separately). -/
def themeStep (s : Option String) : String :=
  (handleSetTheme
    { urlPath := "/set-theme", accept := "", referer := "",
      formValues := [],
      cookies := match s with | none => [] | some v => [("theme", v)] }).cookie.value

/-! ## Go string primitives shared by assembly and handler creation -/

/-- ASCII whitespace as trimmed by `strings.TrimSpace` (the routes in play
are ASCII; the additional Unicode space code points never occur). -/
def isSpaceChar (c : Char) : Bool :=
  c == ' ' || c == Char.ofNat 9 || c == Char.ofNat 10
    || c == Char.ofNat 11 || c == Char.ofNat 12 || c == Char.ofNat 13

/-- `strings.TrimSpace` on a character list. -/
def trimChars (cs : List Char) : List Char :=
  ((cs.dropWhile isSpaceChar).reverse.dropWhile isSpaceChar).reverse

/-- `strings.Split(s, " ")` on a character list (empty input yields one
empty field, as in Go). -/
def splitSp : List Char → List (List Char)
  | [] => [[]]
  | c :: rest =>
    let r := splitSp rest
    if c = ' ' then [] :: r
    else (c :: r.headD []) :: r.tail

/-! ## Template cache assembly (parseTemplates) -/

/-- What a cached template for a route contains beyond the cloned master
set: the parsed custom-content template, a parsed page template file, or
nothing (the branch where `CustomContent == nil` and `Template` is blank
adds nothing to the clone). The two reserved entries re-parse their error
fragment into a clone. -/
inductive CacheEntry where
  | custom (blocks : List ContentBlock)
  | file (name : String)
  | baseOnly
  | err404
  | err500
deriving Repr, DecidableEq, Inhabited

/-- The template cache: Go's `map[string]*template.Template`, as an
association list where assignment to an existing key replaces its value in
place and assignment to a fresh key appends.  The list length is therefore
the number of distinct keys. -/
abbrev Cache := List (String × CacheEntry)

/-- Go map assignment `m[k] = v`: replace the binding of an existing key
(all keys are distinct, as in a Go map), append a fresh one. -/
def mapInsert : Cache → String → CacheEntry → Cache
  | [], k, v => [(k, v)]
  | p :: ps, k, v => if p.1 == k then (k, v) :: ps else p :: mapInsert ps k v

/-- Go map read `m[k]` (with its `ok` flag as `Option`). -/
def mapFind (m : Cache) (k : String) : Option CacheEntry :=
  (m.find? (fun p => p.1 == k)).map (·.2)

/-- Outcomes of the external parsing steps of `parseTemplates` — the
`templates/` directory is outside the source tree, so whether each
`ParseFiles`/`ParseGlob` call succeeds is an input of the model.  The fixed
`customContentTemplate` string is a valid template, so parsing it always
succeeds and needs no flag. -/
structure ParseEnv where
  /-- `ParseFiles(base_layout, header, footer, error_500, error_404)`. -/
  baseOk : Bool
  /-- `ParseGlob(components/*.gohtml)`. -/
  componentsOk : Bool
  /-- `ParseFiles(templates/<name>)` for a page template file. -/
  fileParses : String → Bool

/-- The environment in which every external parse succeeds. -/
def envAllOk : ParseEnv :=
  { baseOk := true, componentsOk := true, fileParses := fun _ => true }

/-- The eligibility test of the per-page loop of `parseTemplates` (and of
the registration loop in `main`): `page.CreateHandler && !page.Draft`. -/
def eligible (p : Page) : Bool :=
  p.createHandler && !p.draft

/-- The pages `parseTemplates` builds cache entries for, in order. -/
def eligiblePages (config : SiteConfig) : List Page :=
  config.pages.filter eligible

/-- The per-page content resolution of `parseTemplates`: a non-`nil`
`CustomContent` parses the fixed custom-content template, else a non-blank
(`strings.TrimSpace`) `Template` parses that file (which may fail), else
the clone is cached unchanged. -/
def pageEntry (env : ParseEnv) (p : Page) : Except String CacheEntry :=
  match p.customContent with
  | some blocks => .ok (.custom blocks)
  | none =>
    if !(trimChars p.template.data).isEmpty then
      if env.fileParses p.template then .ok (.file p.template)
      else .error ("error parsing page template " ++ p.template ++ " for route " ++ p.route)
    else .ok .baseOnly

/-- The per-page loop of `parseTemplates`: skip pages that are drafts or do
not request a handler, build the entry for the rest, and assign it to the
cache under the page's `Route` string. -/
def buildPageCache (env : ParseEnv) : List Page → Cache → Except String Cache
  | [], c => .ok c
  | p :: ps, c =>
    if eligible p then
      match pageEntry env p with
      | .error e => .error e
      | .ok ent => buildPageCache env ps (mapInsert c p.route ent)
    else
      buildPageCache env ps c

/-- `parseTemplates` — parse the master set, loop over the pages, then
always cache the two reserved error entries under `"error_404"` and
`"error_500"`.  (Cloning a parsed, never-executed template set cannot
fail; re-parsing the error fragments succeeds whenever the master parse
did, since they are the same files.) -/
def parseTemplates (config : SiteConfig) (env : ParseEnv) : Except String Cache :=
  if !env.baseOk then .error "error parsing base templates"
  else if !env.componentsOk then .error "error parsing component templates"
  else
    match buildPageCache env config.pages [] with
    | .error e => .error e
    | .ok c => .ok (mapInsert (mapInsert c "error_404" .err404) "error_500" .err500)

/-! ## Route parsing at handler creation (getHandler) -/

/-- The token list computed at the top of `getHandler`:
`strings.Split(strings.TrimSpace(page.Route), " ")`. -/
def routeTokens (route : String) : List String :=
  (splitSp (trimChars route.data)).map (fun cs => ⟨cs⟩)

/-- The route built by `getHandler` via the unguarded accesses `parts[0]`
and `parts[1]`; `none` marks the out-of-range access (a Go index
out-of-range panic). -/
def getHandlerRoute (route : String) : Option Route :=
  match routeTokens route with
  | m :: p :: _ => some { method := m, path := p }
  | _ => none

/-! ## Content-negotiated responses (wantsJSON, renderError404, renderError500) -/

/-- Does the second list occur at the head of the first? -/
def charsLeadEq : List Char → List Char → Bool
  | _, [] => true
  | [], _ :: _ => false
  | a :: as, b :: bs => a == b && charsLeadEq as bs

/-- Substring test on character lists: some start position works. -/
def charsHasSub (hay needle : List Char) : Bool :=
  (List.range (hay.length + 1)).any (fun i => charsLeadEq (hay.drop i) needle)

/-- `strings.Contains`. -/
def strContains (s sub : String) : Bool :=
  charsHasSub s.toList sub.toList

/-- `wantsJSON` — the `Accept` header contains `application/json`. -/
def wantsJSON (r : Request) : Bool :=
  strContains r.accept "application/json"

/-- The observable response of the embedded handlers.
`htmlTemplate status key msg` is a page produced by executing the cached
template under `key` (after setting `ErrorHttpCode`/`ErrorMsg` on the page
data); `plainText` is the `http.Error` fallback; `htmlPage` is a successful
render carrying its body. -/
inductive Response where
  | json (status : Nat) (contentType : String) (body : String)
  | htmlTemplate (status : Nat) (cacheKey : String) (errorMsg : String)
  | plainText (status : Nat) (body : String)
  | htmlPage (status : Nat) (body : String)
deriving Repr, DecidableEq, Inhabited

/-- `renderError404` — JSON body `{"error":"not found"}` for JSON clients,
otherwise the cached `error_404` template with status 404 (with the
`http.Error` 500 fallback when the entry is missing from the cache). -/
def renderError404 (cache : Cache) (r : Request) : Response :=
  if wantsJSON r then
    .json 404 "application/json" "\x7b\"error\":\"not found\"\x7d"
  else
    match mapFind cache "error_404" with
    | none => .plainText 500 "Critical Error: 404 Not Found template is missing"
    | some _ =>
      .htmlTemplate 404 "error_404" ("the resource '" ++ r.urlPath ++ "' was not found.")

/-- `renderError500` — JSON body `fmt.Sprintf("{\"error\":\"%s\"}", err)`
(no escaping of the message) for JSON clients, otherwise the cached
`error_500` template with status 500. -/
def renderError500 (cache : Cache) (r : Request) (errMsg : String) : Response :=
  if wantsJSON r then
    .json 500 "application/json" ("\x7b\"error\":\"" ++ errMsg ++ "\"\x7d")
  else
    match mapFind cache "error_500" with
    | none => .plainText 500 "Critical Error: 500 Internal Server Error template is missing"
    | some _ =>
      .htmlTemplate 500 "error_500" ("error in server " ++ errMsg)

/-! ## The custom content template (customContentTemplate) and its execution

`html/template` escapes every `{{.X}}` interpolation in text context with
`htmlEscaper`, whose replacement table rewrites `"`, `&`, `'`, `<`, `>` and
NUL; the embedding reproduces the template's literal text (including its
indentation) exactly. -/

/-- A newline followed by `n` spaces — the literal whitespace runs of the
template source. -/
def nl (n : Nat) : String :=
  "\n" ++ String.mk (List.replicate n ' ')

/-- `htmlEscaper`'s per-character replacement table (text context). -/
def escapeHTMLChar (c : Char) : String :=
  if c = Char.ofNat 34 then "&#34;"
  else if c = Char.ofNat 38 then "&amp;"
  else if c = Char.ofNat 39 then "&#39;"
  else if c = Char.ofNat 60 then "&lt;"
  else if c = Char.ofNat 62 then "&gt;"
  else if c = Char.ofNat 0 then "�"
  else String.mk [c]

/-- Character-by-character application of the replacement table. -/
def escapeChars : List Char → String
  | [] => ""
  | c :: cs => escapeHTMLChar c ++ escapeChars cs

/-- HTML-escaping of an interpolated string in text context. -/
def escapeHTML (s : String) : String :=
  escapeChars s.toList

/-- Concatenation of the outputs of the iterations of a `range` action. -/
def strJoin : List String → String
  | [] => ""
  | s :: ss => s ++ strJoin ss

/-- One iteration of the `{{range .Page.CustomContent}}` body: dispatch on
the block's type tag; registered tags render their component fragment
(`component`), any other tag renders the unsupported-component article
naming the type. -/
def renderBlock (component : String → ContentBlock → String) (b : ContentBlock) : String :=
  nl 20 ++
  (if b.type == "AccordionCard" then
    nl 24 ++ component "AccordionCard" b ++ nl 20
  else if b.type == "AccordionFormGroup" then
    nl 24 ++ component "AccordionFormGroup" b ++ nl 20
  else
    nl 24 ++ "<article>" ++
    nl 28 ++ "<header><strong>Unsupported Component</strong></header>" ++
    nl 28 ++ "<p>Error: The component type '" ++ escapeHTML b.type ++
      "' is not supported.</p>" ++
    nl 24 ++ "</article>" ++ nl 20) ++
  nl 16

/-- Execution of the `"main"` template defined by `customContentTemplate`
on a page's data (`range` over a `nil` slice iterates zero times). -/
def renderMain (component : String → ContentBlock → String) (page : Page) : String :=
  nl 12 ++ "<main class=\"container\">" ++
  nl 16 ++ "<h1>" ++ escapeHTML page.title ++ "</h1>" ++ nl 16 ++
  strJoin ((page.customContent.getD []).map (renderBlock component)) ++
  nl 12 ++ "</main>" ++ nl 8

/-! ## The per-request dispatcher (the closure returned by getHandler) -/

/-- External rendering collaborators. Modelled from the spec: the
`templates/` directory is not in the source tree, so the base layout
(which, per §4.1/§4.4 of the spec, embeds the page's `"main"` template
between the shared header and footer), the registered component fragments
(§4.2), and the execution of page template files are oracles. -/
structure RenderEnv where
  /-- `base_layout` output preceding the embedded `"main"` output. -/
  layoutPre : String
  /-- `base_layout` output following the embedded `"main"` output. -/
  layoutPost : String
  /-- Rendering of a registered component fragment on a block. -/
  component : String → ContentBlock → String
  /-- Executing `base_layout` for a page whose entry came from a template
  file (external file contents, may fail). -/
  fileRender : Page → Except String String
  /-- Executing `base_layout` for a page cached with no page-specific
  content at all (may fail, e.g. on an undefined `"main"`). -/
  baseRender : Page → Except String String

/-- `ExecuteTemplate(w, "base_layout", data)` on a cached entry.  A
custom-content entry executes the fixed `"main"` defined by
`customContentTemplate`, which cannot fail: its only actions are string
comparisons, field reads and `range` over the block list. -/
def executeCached (env : RenderEnv) (page : Page) : CacheEntry → Except String String
  | .custom _ => .ok (env.layoutPre ++ renderMain env.component page ++ env.layoutPost)
  | .file _ => env.fileRender page
  | .baseOnly => env.baseRender page
  | .err404 => .ok (env.layoutPre ++ env.layoutPost)
  | .err500 => .ok (env.layoutPre ++ env.layoutPost)

/-- The request handler returned by `getHandler`: exact path comparison
against the bound path, cache lookup under the page's `Route` string, then
template execution; each failure renders its content-negotiated error. -/
def pageDispatch (env : RenderEnv) (page : Page) (cache : Cache) (boundPath : String)
    (r : Request) : Response :=
  if r.urlPath != boundPath then
    renderError404 cache r
  else
    match mapFind cache page.route with
    | none => renderError500 cache r ("template for route '" ++ page.route ++ "' not found in cache")
    | some ent =>
      match executeCached env page ent with
      | .ok body => .htmlPage 200 body
      | .error e =>
        renderError500 cache r ("template execution failed for " ++ page.route ++ ": " ++ e)

/-! ## Go's sort.Slice (pdqsort)

`getHandler` sorts the menu with `sort.Slice`, whose documentation states
the sort is *not* guaranteed to be stable.  This section transcribes the
implementation behind `sort.Slice` in the Go standard library (package
`sort`, the generated `pdqsort` routines; Go 1.19 through 1.25): insertion
sort for ranges of at most 12 elements, heapsort as depth-limit fallback,
Tukey-ninther pivot selection, pattern breaking with an xorshift generator,
and unstable three-way-ish partitioning.  Loops are expressed with an
explicit fuel argument; every wrapper passes fuel exceeding the iteration
count of the corresponding Go loop. -/

section GoSort

variable {α : Type} (lt : α → α → Bool) (d : α)

/-- `data.Less(i, j)` on the current list contents (the `sort.Slice`
callback closes over the live slice). -/
def goLess (l : List α) (i j : Nat) : Bool :=
  lt (l.getD i d) (l.getD j d)

/-- `data.Swap(i, j)`. -/
def goSwap (l : List α) (i j : Nat) : List α :=
  match l.get? i, l.get? j with
  | some x, some y => (l.set i y).set j x
  | _, _ => l

/-- Inner loop of `insertionSort`: shift element `j` left while smaller
than its predecessor. -/
def insInner : Nat → List α → Nat → Nat → List α
  | 0, l, _, _ => l
  | fuel+1, l, a, j =>
    if j > a && goLess lt d l j (j-1) then insInner fuel (goSwap l j (j-1)) a (j-1) else l

/-- Outer loop of `insertionSort` over `i = a+1, …, b-1`. -/
def insOuter : Nat → List α → Nat → Nat → Nat → List α
  | 0, l, _, _, _ => l
  | fuel+1, l, a, b, i =>
    if i < b then insOuter fuel (insInner lt d (i+1) l a i) a b (i+1) else l

/-- `insertionSort` on the half-open range `[a, b)`. -/
def insertionSortGo (l : List α) (a b : Nat) : List α :=
  insOuter lt d (b+1) l a b (a+1)

/-- `siftDown` of the heapsort fallback. -/
def siftDownGo : Nat → List α → Nat → Nat → Nat → List α
  | 0, l, _, _, _ => l
  | fuel+1, l, root, hi, first =>
    let child := 2*root + 1
    if child ≥ hi then l
    else
      let child :=
        if child + 1 < hi && goLess lt d l (first+child) (first+child+1) then child + 1 else child
      if !goLess lt d l (first+root) (first+child) then l
      else siftDownGo fuel (goSwap l (first+root) (first+child)) child hi first

/-- Heap construction: `for i := (hi-1)/2; i >= 0; i--` (the counter runs
from `count-1` down to `0`). -/
def heapBuildLoop : Nat → List α → Nat → Nat → List α
  | 0, l, _, _ => l
  | count+1, l, hi, first =>
    heapBuildLoop count (siftDownGo lt d (hi+1) l count hi first) hi first

/-- Pop loop of `heapSort`: `for i := hi-1; i >= 0; i--`. -/
def heapSortLoop : Nat → List α → Nat → List α
  | 0, l, _ => l
  | count+1, l, first =>
    heapSortLoop count (siftDownGo lt d (count+2) (goSwap l first (first+count)) 0 count first) first

/-- `heapSort` on `[a, b)`. -/
def heapSortGo (l : List α) (a b : Nat) : List α :=
  heapSortLoop lt d (b-a) (heapBuildLoop lt d ((b-a-1)/2 + 1) l (b-a) a) a

/-- The sortedness hints of `choosePivot`. -/
inductive SortHint where
  | increasing
  | decreasing
  | unknown
deriving Repr, DecidableEq, Inhabited

/-- `order2`: the two indices in non-decreasing element order, counting a
swap when they had to be exchanged. -/
def order2 (l : List α) (a b : Nat) (swaps : Nat) : Nat × Nat × Nat :=
  if goLess lt d l b a then (b, a, swaps + 1) else (a, b, swaps)

/-- `median`: index of the median element among three, threading the swap
counter. -/
def median (l : List α) (a b c : Nat) (swaps : Nat) : Nat × Nat :=
  let r1 := order2 lt d l a b swaps
  let r2 := order2 lt d l r1.2.1 c r1.2.2
  let r3 := order2 lt d l r1.1 r2.1 r2.2.2
  (r3.2.1, r3.2.2)

/-- `medianAdjacent`: median of `{a-1, a, a+1}`. -/
def medianAdjacent (l : List α) (a : Nat) (swaps : Nat) : Nat × Nat :=
  median lt d l (a-1) a (a+1) swaps

/-- `choosePivot`: fixed quartile probes, Tukey ninther for long ranges,
and a sortedness hint from the swap count (`0` of the up-to-12 comparisons
out of order → increasing, all `12` → decreasing). -/
def choosePivot (l : List α) (a b : Nat) : Nat × SortHint :=
  let len := b - a
  let i := a + len/4 * 1
  let j := a + len/4 * 2
  let k := a + len/4 * 3
  if len ≥ 8 then
    let probes :=
      if len ≥ 50 then
        let ri := medianAdjacent lt d l i 0
        let rj := medianAdjacent lt d l j ri.2
        let rk := medianAdjacent lt d l k rj.2
        median lt d l ri.1 rj.1 rk.1 rk.2
      else
        median lt d l i j k 0
    let hint :=
      if probes.2 == 0 then SortHint.increasing
      else if probes.2 == 12 then SortHint.decreasing
      else SortHint.unknown
    (probes.1, hint)
  else
    (j, SortHint.increasing)

/-- `for i <= j && data.Less(i, a) { i++ }`. -/
def skipLo : Nat → List α → Nat → Nat → Nat → Nat
  | 0, _, i, _, _ => i
  | fuel+1, l, i, j, a => if i ≤ j && goLess lt d l i a then skipLo fuel l (i+1) j a else i

/-- `for i <= j && !data.Less(j, a) { j-- }`. -/
def skipHi : Nat → List α → Nat → Nat → Nat → Nat
  | 0, _, _, j, _ => j
  | fuel+1, l, i, j, a => if i ≤ j && !goLess lt d l j a then skipHi fuel l i (j-1) a else j

/-- Main exchange loop of `partition`. -/
def partLoop : Nat → List α → Nat → Nat → Nat → List α × Nat
  | 0, l, _, j, _ => (l, j)
  | fuel+1, l, i, j, a =>
    let i := skipLo lt d (j+2) l i j a
    let j := skipHi lt d (j+2) l i j a
    if i > j then (l, j)
    else partLoop fuel (goSwap l i j) (i+1) (j-1) a

/-- `partition`: Hoare-style partition around the pivot (moved to `a`
first), returning the final pivot position and whether the range was
already partitioned. -/
def partitionGo (l : List α) (a b pivot : Nat) : List α × Nat × Bool :=
  let l := goSwap l a pivot
  let i := a + 1
  let j := b - 1
  let i := skipLo lt d (b+2) l i j a
  let j := skipHi lt d (b+2) l i j a
  if i > j then (goSwap l j a, j, true)
  else
    let l := goSwap l i j
    let r := partLoop lt d (b+2) l (i+1) (j-1) a
    (goSwap r.1 r.2 a, r.2, false)

/-- `for i <= j && !data.Less(a, i) { i++ }` (of `partitionEqual`). -/
def skipLoEq : Nat → List α → Nat → Nat → Nat → Nat
  | 0, _, i, _, _ => i
  | fuel+1, l, i, j, a => if i ≤ j && !goLess lt d l a i then skipLoEq fuel l (i+1) j a else i

/-- `for i <= j && data.Less(a, j) { j-- }` (of `partitionEqual`). -/
def skipHiEq : Nat → List α → Nat → Nat → Nat → Nat
  | 0, _, _, j, _ => j
  | fuel+1, l, i, j, a => if i ≤ j && goLess lt d l a j then skipHiEq fuel l i (j-1) a else j

/-- Exchange loop of `partitionEqual`, returning the first index of the
strictly-greater suffix. -/
def partEqLoop : Nat → List α → Nat → Nat → Nat → List α × Nat
  | 0, l, i, _, _ => (l, i)
  | fuel+1, l, i, j, a =>
    let i := skipLoEq lt d (j+2) l i j a
    let j := skipHiEq lt d (j+2) l i j a
    if i > j then (l, i)
    else partEqLoop fuel (goSwap l i j) (i+1) (j-1) a

/-- `partitionEqual`: skim off elements equal to the pivot. -/
def partitionEqualGo (l : List α) (a b pivot : Nat) : List α × Nat :=
  let l := goSwap l a pivot
  partEqLoop lt d (b+2) l (a+1) (b-1) a

/-- Scan of `partialInsertionSort`: advance `i` over the non-decreasing
run. -/
def sortedRunEnd : Nat → List α → Nat → Nat → Nat
  | 0, _, i, _ => i
  | fuel+1, l, i, b => if i < b && !goLess lt d l i (i-1) then sortedRunEnd fuel l (i+1) b else i

/-- Left shift of `partialInsertionSort`
(`for j := i - 1; j >= 1; j--`). -/
def shiftLeftLoop : Nat → List α → Nat → List α
  | 0, l, _ => l
  | fuel+1, l, j =>
    if j ≥ 1 && goLess lt d l j (j-1) then shiftLeftLoop fuel (goSwap l j (j-1)) (j-1) else l

/-- Right shift of `partialInsertionSort`
(`for j := i + 1; j < b; j++`). -/
def shiftRightLoop : Nat → List α → Nat → Nat → List α
  | 0, l, _, _ => l
  | fuel+1, l, j, b =>
    if j < b && goLess lt d l j (j-1) then shiftRightLoop fuel (goSwap l j (j-1)) (j+1) b else l

/-- `partialInsertionSort`: up to five adjacent out-of-order pairs are
repaired; on ranges shorter than 50 it bails out before any mutation.  The
claims below only exercise it on such short ranges. -/
def optimisticInsSort : Nat → List α → Nat → Nat → Nat → List α × Bool
  | 0, l, _, _, _ => (l, false)
  | steps+1, l, a, b, i =>
    let i := sortedRunEnd lt d (b+1) l i b
    if i == b then (l, true)
    else if b - a < 50 then (l, false)
    else
      let l := goSwap l i (i-1)
      let l := if i - a ≥ 2 then shiftLeftLoop lt d i l (i-1) else l
      let l := if b - i ≥ 2 then shiftRightLoop lt d (b+1) l (i+1) b else l
      optimisticInsSort steps l a b i

/-- `bits.Len` on a `uint`. -/
def bitsLen (n : Nat) : Nat :=
  if n = 0 then 0 else Nat.log2 n + 1

/-- One step of the `xorshift` generator of `breakPatterns`
(`uint64` arithmetic). -/
def xorshiftNext (r : Nat) : Nat :=
  let m := 2 ^ 64
  let r := (Nat.xor r ((r <<< 13) % m)) % m
  let r := Nat.xor r (r >>> 7)
  (Nat.xor r ((r <<< 17) % m)) % m

/-- `breakPatterns`: swap three elements around the presumptive pivot with
pseudo-random partners (generator seeded with the range length). -/
def breakPatternsGo (l : List α) (a b : Nat) : List α :=
  let len := b - a
  if len ≥ 8 then
    let modulus := 2 ^ (bitsLen len)
    let idx := a + (len/4)*2 - 1
    let r1 := xorshiftNext len
    let o1 := r1 % modulus
    let o1 := if o1 ≥ len then o1 - len else o1
    let l := goSwap l (idx - 1) (a + o1)
    let r2 := xorshiftNext r1
    let o2 := r2 % modulus
    let o2 := if o2 ≥ len then o2 - len else o2
    let l := goSwap l idx (a + o2)
    let r3 := xorshiftNext r2
    let o3 := r3 % modulus
    let o3 := if o3 ≥ len then o3 - len else o3
    goSwap l (idx + 1) (a + o3)
  else l

/-- `reverseRange`. -/
def revLoop : Nat → List α → Nat → Nat → List α
  | 0, l, _, _ => l
  | fuel+1, l, i, j => if i < j then revLoop fuel (goSwap l i j) (i+1) (j-1) else l

/-- `reverseRange` on `[a, b)`. -/
def reverseRangeGo (l : List α) (a b : Nat) : List α :=
  revLoop (b+1) l a (b-1)

/-- `pdqsort`: the main recursion.  A fresh recursive invocation starts
with `wasBalanced = wasPartitioned = true`; the continuation of the loop
keeps the values computed from the last partitioning. -/
def pdqsortGo : Nat → List α → Nat → Nat → Nat → Bool → Bool → List α
  | 0, l, _, _, _, _, _ => l
  | fuel+1, l, a, b, limit, wasBalanced, wasPartitioned =>
    let length := b - a
    if length ≤ 12 then insertionSortGo lt d l a b
    else if limit == 0 then heapSortGo lt d l a b
    else
      let lim := if !wasBalanced then limit - 1 else limit
      let l := if !wasBalanced then breakPatternsGo l a b else l
      let pv := choosePivot lt d l a b
      let l := if pv.2 == SortHint.decreasing then reverseRangeGo l a b else l
      let pivot := if pv.2 == SortHint.decreasing then (b-1) - (pv.1 - a) else pv.1
      let hint := if pv.2 == SortHint.decreasing then SortHint.increasing else pv.2
      let tryRes :=
        if wasBalanced && wasPartitioned && hint == SortHint.increasing then
          optimisticInsSort lt d 5 l a b (a+1)
        else (l, false)
      if tryRes.2 then tryRes.1
      else
        let l := tryRes.1
        if a > 0 && !goLess lt d l (a-1) pivot then
          let pe := partitionEqualGo lt d l a b pivot
          pdqsortGo fuel pe.1 pe.2 b lim wasBalanced wasPartitioned
        else
          let pr := partitionGo lt d l a b pivot
          let mid := pr.2.1
          let leftLen := mid - a
          let rightLen := b - mid
          let newBalanced := decide (min leftLen rightLen ≥ length / 8)
          let newPartitioned := pr.2.2
          if leftLen < rightLen then
            let l2 := pdqsortGo fuel pr.1 a mid lim true true
            pdqsortGo fuel l2 (mid+1) b lim newBalanced newPartitioned
          else
            let l2 := pdqsortGo fuel pr.1 (mid+1) b lim true true
            pdqsortGo fuel l2 a mid lim newBalanced newPartitioned

/-- `sort.Slice`: run `pdqsort` over the whole slice with depth limit
`bits.Len(uint(length))`. -/
def goSortSlice (l : List α) : List α :=
  pdqsortGo lt d (2 * l.length + 16) l 0 l.length (bitsLen l.length) true true

end GoSort

/-! ## Menu construction (getHandler) -/

/-- The menu snapshot computed once per handler in `getHandler`: filter to
non-draft, menu-visible pages, then `sort.Slice` by ascending
`MenuOrder`. -/
def menuPagesFor (site : SiteConfig) : List Page :=
  goSortSlice (fun x y => decide (x.menuOrder < y.menuOrder)) default
    (site.pages.filter (fun p => !p.draft && p.showInMenu))

/-! ## A JSON document acceptor

Used only to *state* the claim that an unescaped error message can make the
JSON error body of `renderError500` an invalid JSON document.  It accepts
exactly the RFC 8259 grammar (value = object / array / string / number /
`true` / `false` / `null`, with insignificant whitespace); each function
returns the unconsumed remainder, `none` on a syntax error. -/

/-- JSON insignificant whitespace. -/
def jsonWs (c : Char) : Bool :=
  c == ' ' || c == Char.ofNat 9 || c == Char.ofNat 10 || c == Char.ofNat 13

/-- Drop leading JSON whitespace. -/
def skipWs : List Char → List Char
  | [] => []
  | c :: cs => if jsonWs c then skipWs cs else c :: cs

/-- Hexadecimal digit. -/
def isHexDigit (c : Char) : Bool :=
  c.isDigit || ('a' ≤ c && c ≤ 'f') || ('A' ≤ c && c ≤ 'F')

/-- Body of a JSON string after its opening quote; stops past the closing
quote.  Control characters are forbidden unescaped; escapes are the eight
single-character ones and `\uXXXX`. -/
def jsonStrRest : Nat → List Char → Option (List Char)
  | 0, _ => none
  | _, [] => none
  | fuel+1, c :: cs =>
    if c = Char.ofNat 34 then some cs
    else if c = '\\' then
      match cs with
      | [] => none
      | e :: cs' =>
        if e = Char.ofNat 34 || e = '\\' || e = '/' || e = 'b' || e = 'f'
            || e = 'n' || e = 'r' || e = 't' then
          jsonStrRest fuel cs'
        else if e = 'u' then
          match cs' with
          | h1 :: h2 :: h3 :: h4 :: cs'' =>
            if isHexDigit h1 && isHexDigit h2 && isHexDigit h3 && isHexDigit h4 then
              jsonStrRest fuel cs''
            else none
          | _ => none
        else none
    else if c.toNat ≥ 32 then jsonStrRest fuel cs
    else none

/-- Optional exponent part of a JSON number. -/
def jsonExpRest (cs : List Char) : Option (List Char) :=
  match cs with
  | c :: t =>
    if c = 'e' || c = 'E' then
      let t := match t with
        | s :: t' => if s = '+' || s = '-' then t' else s :: t'
        | [] => []
      match t with
      | d :: _ => if d.isDigit then some (t.dropWhile Char.isDigit) else none
      | [] => none
    else some cs
  | [] => some cs

/-- Optional fraction part (then exponent) of a JSON number. -/
def jsonFracRest (cs : List Char) : Option (List Char) :=
  match cs with
  | c :: t =>
    if c = '.' then
      match t with
      | d :: _ => if d.isDigit then jsonExpRest (t.dropWhile Char.isDigit) else none
      | [] => none
    else jsonExpRest cs
  | [] => jsonExpRest cs

/-- A JSON number: optional minus, `0` or a nonzero-led digit run,
fraction, exponent. -/
def jsonNumRest (cs : List Char) : Option (List Char) :=
  let cs := match cs with
    | c :: t => if c = '-' then t else c :: t
    | [] => []
  match cs with
  | c :: t =>
    if c = '0' then jsonFracRest t
    else if c.isDigit then jsonFracRest (t.dropWhile Char.isDigit)
    else none
  | [] => none

mutual

/-- A JSON value (with leading whitespace). -/
def jsonValRest : Nat → List Char → Option (List Char)
  | 0, _ => none
  | fuel+1, cs =>
    match skipWs cs with
    | [] => none
    | c :: t =>
      if c = Char.ofNat 34 then jsonStrRest (t.length + 1) t
      else if c = Char.ofNat 123 then jsonObjRest fuel (skipWs t) true
      else if c = '[' then jsonArrRest fuel (skipWs t) true
      else if charsLeadEq (c :: t) ['t', 'r', 'u', 'e'] then some ((c :: t).drop 4)
      else if charsLeadEq (c :: t) ['f', 'a', 'l', 's', 'e'] then some ((c :: t).drop 5)
      else if charsLeadEq (c :: t) ['n', 'u', 'l', 'l'] then some ((c :: t).drop 4)
      else jsonNumRest (c :: t)

/-- Members of a JSON object after `{` (whitespace already skipped);
`first` is true before the first member. -/
def jsonObjRest : Nat → List Char → Bool → Option (List Char)
  | 0, _, _ => none
  | fuel+1, cs, first =>
    match cs with
    | [] => none
    | c :: t =>
      if c = Char.ofNat 125 && first then some t
      else if c = Char.ofNat 34 then
        match jsonStrRest (t.length + 1) t with
        | none => none
        | some r1 =>
          match skipWs r1 with
          | [] => none
          | c2 :: r2 =>
            if c2 = ':' then
              match jsonValRest fuel r2 with
              | none => none
              | some r3 =>
                match skipWs r3 with
                | [] => none
                | c3 :: r4 =>
                  if c3 = ',' then jsonObjRest fuel (skipWs r4) false
                  else if c3 = Char.ofNat 125 then some r4
                  else none
            else none
      else none

/-- Elements of a JSON array after `[` (whitespace already skipped). -/
def jsonArrRest : Nat → List Char → Bool → Option (List Char)
  | 0, _, _ => none
  | fuel+1, cs, first =>
    match cs with
    | [] => none
    | c :: t =>
      if c = ']' && first then some t
      else
        match jsonValRest fuel (c :: t) with
        | none => none
        | some r1 =>
          match skipWs r1 with
          | [] => none
          | c2 :: r2 =>
            if c2 = ',' then jsonArrRest fuel (skipWs r2) false
            else if c2 = ']' then some r2
            else none

end

/-- Is the string a single well-formed JSON document (with possible
surrounding whitespace)? -/
def isValidJson (s : String) : Bool :=
  match jsonValRest (s.length + 1) s.toList with
  | none => false
  | some rest => (skipWs rest).isEmpty

/-! ## Helper lemmas -/

/-- The key list of a cache. -/
def cacheKeys (c : Cache) : List String :=
  c.map (·.1)

theorem mapFind_cons (p : String × CacheEntry) (ps : Cache) (k : String) :
    mapFind (p :: ps) k = if p.1 = k then some p.2 else mapFind ps k := by
  by_cases h : p.1 = k
  · simp [mapFind, List.find?, h]
  · have hb : (p.1 == k) = false := by simp [h]
    simp [mapFind, List.find?, hb, h]

theorem mapFind_mapInsert (m : Cache) (k k' : String) (v : CacheEntry) :
    mapFind (mapInsert m k v) k' = if k' = k then some v else mapFind m k' := by
  induction m with
  | nil =>
    by_cases h : k' = k
    · subst h; simp [mapInsert, mapFind_cons]
    · simp [mapInsert, mapFind_cons, mapFind, Ne.symm h, h]
  | cons p ps ih =>
    by_cases hp : p.1 = k
    · have hins : mapInsert (p :: ps) k v = (k, v) :: ps := by
        simp [mapInsert, hp]
      rw [hins, mapFind_cons, mapFind_cons]
      by_cases hk : k' = k
      · simp [hk]
      · simp [hk, Ne.symm hk, hp]
    · have hins : mapInsert (p :: ps) k v = p :: mapInsert ps k v := by
        simp [mapInsert, hp]
      rw [hins, mapFind_cons, mapFind_cons, ih]
      by_cases hpk : p.1 = k'
      · have hk : ¬ k' = k := fun h => hp (hpk.trans h)
        simp [hpk, hk]
      · simp [hpk]

theorem cacheKeys_mapInsert_of_not_mem (m : Cache) (k : String) (v : CacheEntry)
    (h : k ∉ cacheKeys m) :
    cacheKeys (mapInsert m k v) = cacheKeys m ++ [k] := by
  induction m with
  | nil => simp [mapInsert, cacheKeys]
  | cons p ps ih =>
    simp only [cacheKeys, List.map_cons, List.mem_cons, not_or] at h
    simp only [mapInsert, beq_eq_false_iff_ne, Ne.symm h.1, if_false,
      bne_iff_ne, ite_false]
    have hps := ih h.2
    simp only [cacheKeys, List.map_cons] at hps ⊢
    simp [hps, if_neg (Ne.symm h.1), beq_eq_false_iff_ne]

theorem length_eq_length_cacheKeys (c : Cache) : c.length = (cacheKeys c).length := by
  simp [cacheKeys]

/-- Routes of the eligible pages of a page list. -/
def eligRoutes (ps : List Page) : List String :=
  (ps.filter eligible).map (·.route)

theorem buildPageCache_keys (env : ParseEnv) :
    ∀ (ps : List Page) (acc c : Cache),
      buildPageCache env ps acc = .ok c →
      (∀ k ∈ cacheKeys acc, k ∉ eligRoutes ps) →
      (eligRoutes ps).Nodup →
      cacheKeys c = cacheKeys acc ++ eligRoutes ps := by
  intro ps
  induction ps with
  | nil =>
    intro acc c h _ _
    simp only [buildPageCache] at h
    cases h
    simp [eligRoutes]
  | cons p ps ih =>
    intro acc c h hdisj hnd
    by_cases he : eligible p = true
    · have hr : eligRoutes (p :: ps) = p.route :: eligRoutes ps := by
        simp [eligRoutes, List.filter_cons, he]
      rw [hr] at hdisj hnd
      rw [hr]
      simp only [buildPageCache, he, if_true] at h
      cases hpe : pageEntry env p with
      | error e => rw [hpe] at h; exact absurd h (by simp)
      | ok ent =>
        rw [hpe] at h
        have hnotin : p.route ∉ cacheKeys acc :=
          fun hmem => (hdisj _ hmem) (List.mem_cons_self _ _)
        have hkeys := cacheKeys_mapInsert_of_not_mem acc p.route ent hnotin
        have hd2 : ∀ k ∈ cacheKeys (mapInsert acc p.route ent), k ∉ eligRoutes ps := by
          intro k hk
          rw [hkeys] at hk
          rcases List.mem_append.mp hk with hk | hk
          · exact fun hmem => (hdisj k hk) (List.mem_cons_of_mem _ hmem)
          · simp only [List.mem_singleton] at hk
            subst hk
            exact (List.nodup_cons.mp hnd).1
        have hrec := ih (mapInsert acc p.route ent) c h hd2 (List.nodup_cons.mp hnd).2
        rw [hrec, hkeys, List.append_assoc, List.singleton_append]
    · have hr : eligRoutes (p :: ps) = eligRoutes ps := by
        simp [eligRoutes, List.filter_cons, he]
      simp only [buildPageCache, he, if_false] at h
      rw [hr] at hdisj hnd
      rw [hr]
      exact ih acc c h hdisj hnd

theorem parseTemplates_ok_destruct (cfg : SiteConfig) (env : ParseEnv) (c : Cache)
    (h : parseTemplates cfg env = .ok c) :
    ∃ c0, buildPageCache env cfg.pages [] = .ok c0 ∧
      c = mapInsert (mapInsert c0 "error_404" .err404) "error_500" .err500 := by
  cases hb : env.baseOk with
  | false => simp [parseTemplates, hb] at h
  | true =>
    cases hcomp : env.componentsOk with
    | false => simp [parseTemplates, hb, hcomp] at h
    | true =>
      cases hbp : buildPageCache env cfg.pages [] with
      | error e => simp [parseTemplates, hb, hcomp, hbp] at h
      | ok c0 =>
        refine ⟨c0, rfl, ?_⟩
        simp [parseTemplates, hb, hcomp, hbp] at h
        exact h.symm

theorem parseTemplates_keys (cfg : SiteConfig) (env : ParseEnv) (c : Cache)
    (h : parseTemplates cfg env = .ok c)
    (hnd : (eligRoutes cfg.pages).Nodup)
    (h4 : "error_404" ∉ eligRoutes cfg.pages)
    (h5 : "error_500" ∉ eligRoutes cfg.pages) :
    cacheKeys c = eligRoutes cfg.pages ++ ["error_404", "error_500"] := by
  obtain ⟨c0, hbp, rfl⟩ := parseTemplates_ok_destruct cfg env c h
  have hk0 : cacheKeys c0 = eligRoutes cfg.pages := by
    have := buildPageCache_keys env cfg.pages [] c0 hbp (by simp [cacheKeys]) hnd
    simpa [cacheKeys] using this
  have hk1 : cacheKeys (mapInsert c0 "error_404" .err404)
      = eligRoutes cfg.pages ++ ["error_404"] := by
    rw [cacheKeys_mapInsert_of_not_mem _ _ _ (by rw [hk0]; exact h4), hk0]
  have h404 : "error_404" ∉ cacheKeys (mapInsert c0 "error_404" CacheEntry.err404) → False := by
    intro hcon
    exact hcon (by rw [hk1]; simp)
  have h500 : "error_500" ∉ cacheKeys (mapInsert c0 "error_404" CacheEntry.err404) := by
    rw [hk1]
    intro hcon
    rcases List.mem_append.mp hcon with hcon | hcon
    · exact h5 hcon
    · simp at hcon
  rw [cacheKeys_mapInsert_of_not_mem _ _ _ h500, hk1, List.append_assoc]
  rfl

theorem parseTemplates_find_error404 (cfg : SiteConfig) (env : ParseEnv) (c : Cache)
    (h : parseTemplates cfg env = .ok c) :
    mapFind c "error_404" = some .err404 := by
  obtain ⟨c0, _, rfl⟩ := parseTemplates_ok_destruct cfg env c h
  rw [mapFind_mapInsert]
  rw [if_neg (by decide), mapFind_mapInsert, if_pos rfl]

theorem charsLeadEq_append (n post : List Char) : charsLeadEq (n ++ post) n = true := by
  induction n with
  | nil => cases post <;> rfl
  | cons c cs ih => simp [charsLeadEq, ih]

theorem charsHasSub_of_parts (pre n post : List Char) :
    charsHasSub (pre ++ (n ++ post)) n = true := by
  unfold charsHasSub
  rw [List.any_eq_true]
  refine ⟨pre.length, List.mem_range.mpr ?_, ?_⟩
  · simp only [List.length_append]
    omega
  · rw [List.drop_left]
    exact charsLeadEq_append n post

theorem strContains_of_parts (s n pre post : String)
    (h : s.data = pre.data ++ (n.data ++ post.data)) :
    strContains s n = true := by
  show charsHasSub s.data n.data = true
  rw [h]
  exact charsHasSub_of_parts pre.data n.data post.data

theorem strJoin_append_data (xs ys : List String) :
    (strJoin (xs ++ ys)).data = (strJoin xs).data ++ (strJoin ys).data := by
  induction xs with
  | nil => simp [strJoin]
  | cons x xs ih => simp [strJoin, String.data_append, ih]

/-- Characters untouched by the HTML replacement table. -/
def htmlPlainChar (c : Char) : Bool :=
  !(c == Char.ofNat 34 || c == Char.ofNat 38 || c == Char.ofNat 39 || c == Char.ofNat 60
      || c == Char.ofNat 62 || c == Char.ofNat 0)

theorem escapeChars_plain (cs : List Char) (h : cs.all htmlPlainChar = true) :
    escapeChars cs = ⟨cs⟩ := by
  induction cs with
  | nil => rfl
  | cons c cs ih =>
    simp only [List.all_cons, Bool.and_eq_true] at h
    have hplain := h.1
    have hc : escapeHTMLChar c = ⟨[c]⟩ := by
      unfold escapeHTMLChar
      split_ifs with a1 a2 a3 a4 a5 a6
      · rw [a1] at hplain; simp [htmlPlainChar] at hplain
      · rw [a2] at hplain; simp [htmlPlainChar] at hplain
      · rw [a3] at hplain; simp [htmlPlainChar] at hplain
      · rw [a4] at hplain; simp [htmlPlainChar] at hplain
      · rw [a5] at hplain; simp [htmlPlainChar] at hplain
      · rw [a6] at hplain; simp [htmlPlainChar] at hplain
      · rfl
    rw [escapeChars, hc, ih h.2]
    rfl

theorem escapeHTML_plain (s : String) (h : s.toList.all htmlPlainChar = true) :
    escapeHTML s = s := by
  unfold escapeHTML
  rw [escapeChars_plain _ h]
  rfl

theorem handleSetTheme_cookie (r : Request) :
    (handleSetTheme r).cookie =
      { name := "theme",
        value := specFlipTheme (specResolveTheme (requestCookie r "theme")),
        path := "/" } := by
  unfold handleSetTheme specFlipTheme specResolveTheme getThemeFromCookie
  cases h : requestCookie r "theme" with
  | none => simp
  | some v =>
    by_cases hl : v = "light"
    · simp [hl]
    · by_cases hd : v = "dark"
      · simp [hl, hd]
      · simp [hl, hd]

theorem themeStep_eq (s : Option String) :
    themeStep s = specFlipTheme (specResolveTheme s) := by
  unfold themeStep
  rw [handleSetTheme_cookie]
  cases s <;> rfl

instance {ε α : Type} [DecidableEq ε] [DecidableEq α] : DecidableEq (Except ε α) :=
  fun a b =>
    match a, b with
    | .ok x, .ok y =>
      if h : x = y then .isTrue (by rw [h]) else .isFalse (by simp [h])
    | .error x, .error y =>
      if h : x = y then .isTrue (by rw [h]) else .isFalse (by simp [h])
    | .ok _, .error _ => .isFalse (by simp)
    | .error _, .ok _ => .isFalse (by simp)

/-! ## Concrete fixtures for witnesses, counterexamples and failing inputs -/

/-- A page with the given route, flags and content source; the remaining
fields are empty. -/
def mkPage (route title : String) (draft createHandler showInMenu : Bool)
    (menuOrder : Int) (customContent : Option (List ContentBlock))
    (template : String) : Page :=
  { route := route, title := title, description := "", draft := draft,
    errorHttpCode := "", errorMsg := "", createHandler := createHandler,
    showInMenu := showInMenu, menuOrder := menuOrder, content := "",
    customContent := customContent, template := template, layout := "" }

/-- A site around the given pages; the site-wide metadata is irrelevant to
every claim. -/
def mkSite (pages : List Page) : SiteConfig :=
  { title := "site", baseURL := "", language := "", description := "",
    author := { name := "", email := "" }, social := [], footer := "",
    pages := pages }

/-- A rendering environment with empty layout and trivial oracles. -/
def renvW : RenderEnv :=
  { layoutPre := "", layoutPost := "", component := fun _ _ => "",
    fileRender := fun _ => .ok "", baseRender := fun _ => .ok "" }

/-! ## C6 — malformed route strings at handler creation -/

/-- An eligible page whose `Route` is a single token. -/
def pageC6 : Page :=
  mkPage "GET" "Broken" false true false 0 none ""

/-- The site consisting of that page. -/
def cfgC6 : SiteConfig :=
  mkSite [pageC6]

/-- C6: a single-token route passes the registration filter
(`CreateHandler && !Draft`) and assembly raises no configuration error for
it, yet the token list built by `getHandler` has length 1, so the
unguarded `parts[1]` access is out of range — at run time this is a Go
index-out-of-range panic during handler creation, not a configuration
error. -/
theorem c6_malformed_route_unguarded_access :
    eligible pageC6 = true
    ∧ routeTokens pageC6.route = ["GET"]
    ∧ (routeTokens pageC6.route).length = 1
    ∧ (routeTokens pageC6.route).get? 1 = none
    ∧ getHandlerRoute pageC6.route = none
    ∧ parseTemplates cfgC6 envAllOk
        = .ok [("GET", .baseOnly), ("error_404", .err404), ("error_500", .err500)] := by
  decide

/-! ## C7 — the theme toggle -/

/-- C7: the toggle handler writes back the flip (`light ↔ dark`) of the
resolved theme (missing or invalid cookie resolving to `light`) as a
cookie named `theme` with path `/`, and redirects (303) to the `Referer`
value, or to `/` when the header is absent. -/
theorem c7_toggle_flips_theme_and_redirects (r : Request) :
    handleSetTheme r =
      { cookie := { name := "theme",
                    value := specFlipTheme (specResolveTheme (requestCookie r "theme")),
                    path := "/" },
        status := 303,
        location := if r.referer = "" then "/" else r.referer } := by
  unfold handleSetTheme getThemeFromCookie specFlipTheme specResolveTheme
  have hloc : (if r.referer == "" then "/" else r.referer)
      = (if r.referer = "" then "/" else r.referer) := by
    by_cases h : r.referer = "" <;> simp [h]
  cases h : requestCookie r "theme" with
  | none => simp [hloc]
  | some v =>
    by_cases hl : v = "light"
    · simp [hl, hloc]
    · by_cases hd : v = "dark" <;> simp [hl, hd, hloc]

/-! ## C8 — the toggle is an involution, not idempotent -/

/-- C8 counterexample: starting from no `theme` cookie, one application of
the toggle leaves the cookie at `dark`, a second application leaves it at
`light` — applying the handler twice does not leave the cookie as one
application does. -/
theorem c8_counterexample_not_idempotent :
    themeStep none = "dark"
    ∧ themeStep (some (themeStep none)) = "light"
    ∧ themeStep (some (themeStep none)) ≠ themeStep none := by
  decide

/-- C8 (amended): the toggle is deterministic and an involution on the
client-visible cookie — applying it twice returns the cookie to the
starting resolved theme, and the twice-toggled state always differs from
the once-toggled state. -/
theorem c8_toggle_involution (s : Option String) :
    themeStep (some (themeStep s)) = specResolveTheme s
    ∧ themeStep (some (themeStep s)) ≠ themeStep s := by
  have h1 := themeStep_eq s
  have h2 := themeStep_eq (some (themeStep s))
  have hres : specResolveTheme s = "light" ∨ specResolveTheme s = "dark" := by
    cases s with
    | none => left; rfl
    | some v =>
      by_cases hl : v = "light"
      · left; simp [specResolveTheme, hl]
      · by_cases hd : v = "dark"
        · right; simp [specResolveTheme, hl, hd]
        · left; simp [specResolveTheme, hl, hd]
  rw [h2, h1] at *
  rcases hres with h | h <;> rw [h] <;> exact ⟨by decide, by decide⟩

/-! ## C9 — the written cookie depends only on the incoming theme cookie -/

/-- C9: two requests carrying the same `theme` cookie receive identical
`Set-Cookie` results from the toggle handler, whatever their other parts
(in particular any submitted `theme` form value is ignored). -/
theorem c9_cookie_noninterference (r1 r2 : Request)
    (h : requestCookie r1 "theme" = requestCookie r2 "theme") :
    (handleSetTheme r1).cookie = (handleSetTheme r2).cookie := by
  rw [handleSetTheme_cookie, handleSetTheme_cookie, h]

/-- A request with a `dark` cookie and a submitted `theme=light` form
value. -/
def reqC9a : Request :=
  { urlPath := "/set-theme", accept := "", cookies := [("theme", "dark")],
    referer := "", formValues := [("theme", "light")] }

/-- A request with the same cookie and no form data. -/
def reqC9b : Request :=
  { urlPath := "/set-theme", accept := "", cookies := [("theme", "dark")],
    referer := "/p", formValues := [] }

/-- C9 witness: the two concrete requests differ in their form values yet
get the same cookie written. -/
theorem c9_witness :
    requestCookie reqC9a "theme" = requestCookie reqC9b "theme"
    ∧ reqC9a.formValues ≠ reqC9b.formValues
    ∧ (handleSetTheme reqC9a).cookie = (handleSetTheme reqC9b).cookie :=
  ⟨by decide, by decide, c9_cookie_noninterference reqC9a reqC9b (by decide)⟩

/-! ## C10 — unescaped JSON 500 bodies -/

/-- C10: for JSON clients the 500 body is the literal concatenation
`{"error":"` + message + `"}` (content type `application/json`, status
500) with no escaping, and for the message `a"b` that body is not a valid
JSON document (while the not-found body of the same shape is, so the
acceptor is not vacuous). -/
theorem c10_json_500_body_unescaped :
    (∀ (cache : Cache) (r : Request) (msg : String), wantsJSON r = true →
      renderError500 cache r msg
        = .json 500 "application/json" ("\x7b\"error\":\"" ++ msg ++ "\"\x7d"))
    ∧ isValidJson ("\x7b\"error\":\"" ++ "a\"b" ++ "\"\x7d") = false
    ∧ isValidJson "\x7b\"error\":\"not found\"\x7d" = true := by
  refine ⟨?_, by decide, by decide⟩
  intro cache r msg hj
  simp [renderError500, hj]

/-- A request accepting JSON. -/
def reqC10 : Request :=
  { urlPath := "/a", accept := "application/json", cookies := [],
    referer := "", formValues := [] }

/-- C10 witness: the universally quantified part applied to a concrete
JSON request and message. -/
theorem c10_witness :
    wantsJSON reqC10 = true
    ∧ renderError500 [] reqC10 "boom"
        = .json 500 "application/json" ("\x7b\"error\":\"" ++ "boom" ++ "\"\x7d") :=
  ⟨by decide, c10_json_500_body_unescaped.1 [] reqC10 "boom" (by decide)⟩

/-! ## C1 — cache shape after assembly -/

/-- Two eligible pages sharing the route string `GET /a`. -/
def cfgC1dup : SiteConfig :=
  mkSite [mkPage "GET /a" "A" false true false 0 none "",
          mkPage "GET /a" "B" false true false 0 none ""]

/-- The cache assembly produces for `cfgC1dup`. -/
def cacheC1dup : Cache :=
  [("GET /a", .baseOnly), ("error_404", .err404), ("error_500", .err500)]

/-- C1 counterexample: with two eligible pages (`N = 2`) sharing one route
string, assembly succeeds but the cache holds 3 entries, not `N + 2 = 4` —
the map assignment under the duplicate key overwrites. -/
theorem c1_counterexample_duplicate_routes :
    parseTemplates cfgC1dup envAllOk = .ok cacheC1dup
    ∧ (eligiblePages cfgC1dup).length = 2
    ∧ cacheC1dup.length = 3
    ∧ cacheC1dup.length ≠ (eligiblePages cfgC1dup).length + 2 := by
  decide

/-- C1 (amended): when the eligible pages' route strings are pairwise
distinct and none equals a reserved key, a successful assembly yields a
cache keyed exactly by those routes (in page order) followed by
`error_404` and `error_500` — hence exactly `N + 2` entries, and no entry
for any draft or handler-disabled page (their routes, when not shared,
are not keys). -/
theorem c1_cache_keys (cfg : SiteConfig) (env : ParseEnv) (c : Cache)
    (h : parseTemplates cfg env = .ok c)
    (hnd : ((eligiblePages cfg).map (·.route)).Nodup)
    (h4 : "error_404" ∉ (eligiblePages cfg).map (·.route))
    (h5 : "error_500" ∉ (eligiblePages cfg).map (·.route)) :
    cacheKeys c = (eligiblePages cfg).map (·.route) ++ ["error_404", "error_500"]
    ∧ c.length = (eligiblePages cfg).length + 2 := by
  have heq : eligRoutes cfg.pages = (eligiblePages cfg).map (·.route) := rfl
  have hkeys := parseTemplates_keys cfg env c h (by rw [heq]; exact hnd)
    (by rw [heq]; exact h4) (by rw [heq]; exact h5)
  rw [heq] at hkeys
  refine ⟨hkeys, ?_⟩
  rw [length_eq_length_cacheKeys, hkeys]
  simp [eligiblePages]

/-- One eligible page with a unique route. -/
def cfgC1w : SiteConfig :=
  mkSite [mkPage "GET /a" "A" false true false 0 none ""]

/-- The cache assembly produces for `cfgC1w`. -/
def cacheC1w : Cache :=
  [("GET /a", .baseOnly), ("error_404", .err404), ("error_500", .err500)]

/-- C1 witness: the amended statement applied to a one-page site. -/
theorem c1_witness :
    cacheKeys cacheC1w = (eligiblePages cfgC1w).map (·.route) ++ ["error_404", "error_500"]
    ∧ cacheC1w.length = (eligiblePages cfgC1w).length + 2 :=
  c1_cache_keys cfgC1w envAllOk cacheC1w (by decide) (by decide) (by decide) (by decide)

/-! ## C2 — a page with neither template nor custom content -/

/-- An eligible page with `custom_content` absent and a blank template
reference. -/
def pageC2 : Page :=
  mkPage "GET /nothing" "Nothing" false true false 0 none ""

/-- The site consisting of that page. -/
def cfgC2 : SiteConfig :=
  mkSite [pageC2]

/-- C2: for an eligible page with neither custom content nor a template
reference, assembly succeeds anyway — the page is cached with only the
cloned base set and stays registered, so no error precedes the listener
start, contradicting the claim (the historical variant's
`renderLayoutTemplate` did return `template and customcontent cannot be
both nil` here). -/
theorem c2_assembly_accepts_contentless_page :
    pageC2.customContent = none
    ∧ trimChars pageC2.template.data = []
    ∧ eligible pageC2 = true
    ∧ eligiblePages cfgC2 = [pageC2]
    ∧ parseTemplates cfgC2 envAllOk
        = .ok [("GET /nothing", .baseOnly), ("error_404", .err404), ("error_500", .err500)] := by
  decide

/-! ## C4 — path mismatch yields a content-negotiated 404 -/

/-- C4: any request reaching a page handler with a URL path different from
the bound path gets the not-found response: the exact JSON body
`{"error":"not found"}` with status 404 for JSON clients, otherwise the
HTML page rendered from the cached `error_404` template with status 404
(present in every successfully assembled cache). -/
theorem c4_path_mismatch_renders_404 (cfg : SiteConfig) (env : ParseEnv) (c : Cache)
    (page : Page) (boundPath : String) (renv : RenderEnv) (r : Request)
    (hc : parseTemplates cfg env = .ok c)
    (hne : r.urlPath ≠ boundPath) :
    pageDispatch renv page c boundPath r =
      if wantsJSON r then
        Response.json 404 "application/json" "\x7b\"error\":\"not found\"\x7d"
      else
        Response.htmlTemplate 404 "error_404"
          ("the resource '" ++ r.urlPath ++ "' was not found.") := by
  have hbne : (r.urlPath != boundPath) = true := by simp [hne]
  have hfind := parseTemplates_find_error404 cfg env c hc
  by_cases hj : wantsJSON r = true
  · simp [pageDispatch, renderError404, hbne, hj]
  · simp [pageDispatch, renderError404, hbne, hj, hfind]

/-- The one-page site used by the C4 witness. -/
def cfgC4w : SiteConfig :=
  mkSite [mkPage "GET /a" "A" false true false 0 none ""]

/-- Its assembled cache. -/
def cacheC4w : Cache :=
  [("GET /a", .baseOnly), ("error_404", .err404), ("error_500", .err500)]

/-- An HTML-accepting request for an undeclared path. -/
def reqC4w : Request :=
  { urlPath := "/x", accept := "text/html", cookies := [], referer := "",
    formValues := [] }

/-- C4 witness: a concrete mismatching HTML request gets the 404 page from
the cached `error_404` template. -/
theorem c4_witness :
    reqC4w.urlPath ≠ "/a"
    ∧ pageDispatch renvW (mkPage "GET /a" "A" false true false 0 none "")
        cacheC4w "/a" reqC4w
        = Response.htmlTemplate 404 "error_404" "the resource '/x' was not found." := by
  refine ⟨by decide, ?_⟩
  have h := c4_path_mismatch_renders_404 cfgC4w envAllOk cacheC4w
    (mkPage "GET /a" "A" false true false 0 none "") "/a" renvW reqC4w
    (by decide) (by decide)
  rw [h]
  decide

/-! ## C5 — unknown content-block types degrade, they do not fail -/

set_option maxRecDepth 4000 in
/-- C5 (amended): a custom-content page whose cache entry was built from
its blocks renders with status 200 whatever its blocks are, and for every
block whose tag is neither `AccordionCard` nor `AccordionFormGroup` the
`"main"` output contains the unsupported-component notice naming the
HTML-escaped type tag — which is the tag itself whenever the tag has no
HTML metacharacter.  The unknown block neither 500s nor aborts the rest of
the page. -/
theorem c5_unknown_block_renders_notice (renv : RenderEnv) (page : Page)
    (blocks : List ContentBlock) (b : ContentBlock) (cache : Cache)
    (boundPath : String) (r : Request)
    (hcc : page.customContent = some blocks)
    (hfind : mapFind cache page.route = some (.custom blocks))
    (hpath : r.urlPath = boundPath)
    (hb : b ∈ blocks)
    (h1 : b.type ≠ "AccordionCard")
    (h2 : b.type ≠ "AccordionFormGroup") :
    pageDispatch renv page cache boundPath r
      = .htmlPage 200 (renv.layoutPre ++ renderMain renv.component page ++ renv.layoutPost)
    ∧ strContains (renderMain renv.component page)
        ("<p>Error: The component type '" ++ escapeHTML b.type
          ++ "' is not supported.</p>") = true
    ∧ (b.type.toList.all htmlPlainChar = true → escapeHTML b.type = b.type) := by
  refine ⟨?_, ?_, fun hp => escapeHTML_plain _ hp⟩
  · simp [pageDispatch, hpath, hfind, executeCached]
  · obtain ⟨l1, l2, rfl⟩ := List.append_of_mem hb
    have hb1 : (b.type == "AccordionCard") = false := by simp [h1]
    have hb2 : (b.type == "AccordionFormGroup") = false := by simp [h2]
    refine strContains_of_parts _ _
      (nl 12 ++ "<main class=\"container\">" ++ nl 16 ++ "<h1>"
        ++ escapeHTML page.title ++ "</h1>" ++ nl 16
        ++ strJoin (l1.map (renderBlock renv.component)) ++ nl 20 ++ nl 24
        ++ "<article>" ++ nl 28
        ++ "<header><strong>Unsupported Component</strong></header>" ++ nl 28)
      (nl 24 ++ "</article>" ++ nl 20 ++ nl 16
        ++ strJoin (l2.map (renderBlock renv.component)) ++ nl 12 ++ "</main>"
        ++ nl 8) ?_
    simp [renderMain, hcc, renderBlock, hb1, hb2, List.map_append,
      strJoin_append_data, strJoin, String.data_append]

/-- A content block whose type tag contains HTML metacharacters. -/
def blockC5x : ContentBlock :=
  { type := "<b>", keyValues := [] }

/-- A page carrying only that block. -/
def pageC5x : Page :=
  mkPage "GET /h" "Home" false true false 0 (some [blockC5x]) ""

set_option maxRecDepth 8000 in
/-- C5 counterexample: for the unregistered type tag `<b>`, the rendered
`"main"` output of the page (and hence the page body under the empty
layout) nowhere contains the tag itself — `html/template` escapes the
interpolation to `&lt;b&gt;` — refuting "the output contains the offending
type name" as universally stated. -/
theorem c5_counterexample_escaped_type_name :
    pageC5x.customContent = some [blockC5x]
    ∧ blockC5x.type = "<b>"
    ∧ blockC5x.type ≠ "AccordionCard"
    ∧ blockC5x.type ≠ "AccordionFormGroup"
    ∧ strContains (renderMain (fun _ _ => "") pageC5x) "<b>" = false
    ∧ strContains (renderMain (fun _ _ => "") pageC5x) "&lt;b&gt;" = true := by
  decide

/-- A content block with the unregistered plain tag `Foo`. -/
def blockC5w : ContentBlock :=
  { type := "Foo", keyValues := [] }

/-- A custom-content page carrying that block. -/
def pageC5w : Page :=
  mkPage "GET /w" "W" false true false 0 (some [blockC5w]) ""

/-- Its cache. -/
def cacheC5w : Cache :=
  [("GET /w", .custom [blockC5w])]

/-- A request for the matching path. -/
def reqC5w : Request :=
  { urlPath := "/w", accept := "", cookies := [], referer := "",
    formValues := [] }

/-- C5 witness: the amended statement at a concrete page with one `Foo`
block. -/
theorem c5_witness :
    pageDispatch renvW pageC5w cacheC5w "/w" reqC5w
      = .htmlPage 200 (renvW.layoutPre ++ renderMain renvW.component pageC5w ++ renvW.layoutPost)
    ∧ strContains (renderMain renvW.component pageC5w)
        ("<p>Error: The component type '" ++ escapeHTML blockC5w.type
          ++ "' is not supported.</p>") = true
    ∧ (blockC5w.type.toList.all htmlPlainChar = true
        → escapeHTML blockC5w.type = blockC5w.type) :=
  c5_unknown_block_renders_notice renvW pageC5w [blockC5w] blockC5w cacheC5w "/w" reqC5w
    (by decide) (by decide) (by decide) (by simp) (by decide) (by decide)

/-! ## C3 — the menu sort is not stable -/

/-- A menu page with the given title and menu order. -/
def menuPage (title : String) (order : Int) : Page :=
  mkPage ("GET /" ++ title) title false true true order none ""

/-- Thirteen menu-visible pages: `A` and `B` share menu order 1 and
precede eleven pages of order 0 — more than the twelve-element threshold
under which `sort.Slice`'s pdqsort is a plain (stable) insertion sort. -/
def cfgC3 : SiteConfig :=
  mkSite [menuPage "A" 1, menuPage "B" 1, menuPage "C2" 0, menuPage "C3" 0,
          menuPage "C4" 0, menuPage "C5" 0, menuPage "C6" 0, menuPage "C7" 0,
          menuPage "C8" 0, menuPage "C9" 0, menuPage "C10" 0, menuPage "C11" 0,
          menuPage "C12" 0]

set_option maxRecDepth 8000 in
/-- C3: on this thirteen-page configuration the menu input (filter in
configuration order) has `A` before `B`, both with menu order 1, but the
menu list built by the handler has `B` before `A` (and `C6` hoisted before
`C2`–`C5` of equal order): `sort.Slice`'s partitioning swaps equal-order
pages, so the sort is not stable as claimed. -/
theorem c3_menu_sort_not_stable :
    (cfgC3.pages.filter (fun p => !p.draft && p.showInMenu)).map
        (fun p => (p.title, p.menuOrder))
      = [("A", 1), ("B", 1), ("C2", 0), ("C3", 0), ("C4", 0), ("C5", 0), ("C6", 0),
         ("C7", 0), ("C8", 0), ("C9", 0), ("C10", 0), ("C11", 0), ("C12", 0)]
    ∧ (menuPagesFor cfgC3).map (·.title)
      = ["C6", "C2", "C3", "C4", "C5", "C7", "C8", "C9", "C10", "C11", "C12", "B", "A"] := by
  decide

end JsonSiteGo
